import Mathlib

/-!
Shallow embedding of the Jupiter V6 instruction/event parser (src/main.go).

Byte buffers are modelled as `List Nat` (each element a byte value 0..255;
Go `[]byte`).  Go strings are byte sequences, so they are also modelled as
`List Nat` where a function consumes string bytes.  A Go function that can
return an error or panic at runtime is modelled with `GoResult`: an
out-of-range slice/index expression panics in Go, which the embedding makes
explicit instead of hiding.
-/

namespace JupV6

/-- Outcome of running a Go function: a normal value, a returned `error`,
or a runtime panic (index/slice out of range). -/
inductive GoResult (α : Type) where
  | ok (val : α)
  | err (msg : String)
  | panicked
deriving Repr, DecidableEq

/-- Go index expression `data[i]`: panics when `i` is out of range. -/
def readByte (data : List Nat) (i : Nat) : GoResult Nat :=
  if i < data.length then .ok (data.getD i 0) else .panicked

/-- Go slice expression `data[a:b]`: panics unless `a ≤ b ≤ len(data)`. -/
def readSlice (data : List Nat) (a b : Nat) : GoResult (List Nat) :=
  if a ≤ b ∧ b ≤ data.length then .ok ((data.drop a).take (b - a)) else .panicked

/-- the sub-list `data[a:b]` (meaningful when `a ≤ b ≤ len data`). -/
def slice (data : List Nat) (a b : Nat) : List Nat := (data.drop a).take (b - a)

/-- binary.LittleEndian.UintNN on a byte list: byte 0 is least significant. -/
def leUint (bytes : List Nat) : Nat := bytes.foldr (fun b acc => b + 256 * acc) 0

/-! ## IEEE-754 binary64 model

Go computes the derived min/max amounts with `float64` arithmetic.  The
embedding represents every float64 value exactly, as an unnormalized
rational `num / den`, and implements each arithmetic operation as the exact
rational operation followed by IEEE round-to-nearest (ties to even).
Overflow and subnormals are not modelled (all values involved are normal and
far below the overflow threshold). -/

/-- Exact value of a float64, as an unnormalized rational `num / den`
(`den > 0` in every value the operations construct). -/
structure GoF where
  num : Int
  den : Nat
deriving Repr, DecidableEq

/-- floor of log2 of `n`, fuel-based so that it reduces structurally. -/
def log2Fuel : Nat → Nat → Nat
  | 0, _ => 0
  | f + 1, n => if n ≤ 1 then 0 else 1 + log2Fuel f (n / 2)

/-- floor of log2 of a positive natural number. -/
def log2N (n : Nat) : Nat := log2Fuel n n

/-- least `k ≥ 1` with `a * 2^k ≥ d`, fuel-based (used for values `< 1`). -/
def kSearch (a d : Nat) : Nat → Nat
  | 0 => 1
  | f + 1 => if d ≤ a * 2 then 1 else 1 + kSearch (a * 2) d f

/-- Rounds `m / den ∈ [2^52, 2^53)` to an integer, round-to-nearest with
ties to even. -/
def mantRound (m den : Nat) : Nat :=
  let n0 := m / den
  let r := m % den
  if 2 * r < den then n0
  else if den < 2 * r then n0 + 1
  else if n0 % 2 = 0 then n0 else n0 + 1

/-- Rounds the positive rational `a / d` to the nearest float64
(ties to even), returning its exact value. -/
def roundPos (a d : Nat) : GoF :=
  if d ≤ a then
    let e := log2N (a / d)
    if e ≤ 52 then
      ⟨(mantRound (a * 2 ^ (52 - e)) d : Int), 2 ^ (52 - e)⟩
    else
      ⟨(mantRound a (d * 2 ^ (e - 52)) : Int) * 2 ^ (e - 52), 1⟩
  else
    let k := kSearch a d d
    ⟨(mantRound (a * 2 ^ (52 + k)) d : Int), 2 ^ (52 + k)⟩

/-- Rounds the exact rational `n / d` (`d > 0`) to the nearest float64. -/
def goRound (n : Int) (d : Nat) : GoF :=
  if n = 0 then ⟨0, 1⟩
  else if 0 < n then roundPos n.toNat d
  else
    let r := roundPos (-n).toNat d
    ⟨-r.num, r.den⟩

/-- Go conversion `float64(x)` for an unsigned integer `x`. -/
def f64ofNat (x : Nat) : GoF := goRound (x : Int) 1

/-- Go float64 multiplication. -/
def fmulF (x y : GoF) : GoF := goRound (x.num * y.num) (x.den * y.den)

/-- Go float64 division (second operand positive in every use here). -/
def fdivF (x y : GoF) : GoF := goRound (x.num * (y.den : Int)) (x.den * y.num.toNat)

/-- Go float64 subtraction. -/
def fsubF (x y : GoF) : GoF :=
  goRound (x.num * (y.den : Int) - y.num * (x.den : Int)) (x.den * y.den)

/-- Go float64 addition. -/
def faddF (x y : GoF) : GoF :=
  goRound (x.num * (y.den : Int) + y.num * (x.den : Int)) (x.den * y.den)

/-- the float64 constant `1.0`. -/
def oneF : GoF := ⟨1, 1⟩

/-- the float64 constant `10000.0`. -/
def tenThousandF : GoF := ⟨10000, 1⟩

/-- Go conversion `uint64(f)`: truncation toward zero.  (For a negative or
out-of-range operand the conversion is implementation-defined in Go; the
model clamps below at 0, and no claim exercises that case.) -/
def goU64 (x : GoF) : Nat := (x.num.tdiv (x.den : Int)).toNat

/-- `uint64(float64(q) * (1.0 - float64(s)/10000.0))` — the derived
minimum-output computation of `parseRouteInstruction` / standard
`parseSharedAccountsRoute`. -/
def minAmountOutGo (q s : Nat) : Nat :=
  goU64 (fmulF (f64ofNat q) (fsubF oneF (fdivF (f64ofNat s) tenThousandF)))

/-- `uint64(float64(x) * (1.0 + float64(s)/10000.0))` — the derived
maximum-input computation of the exact-out instruction shapes. -/
def maxAmountInGo (x s : Nat) : Nat :=
  goU64 (fmulF (f64ofNat x) (faddF oneF (fdivF (f64ofNat s) tenThousandF)))

/-! ## Swap-variant table (decodeSwapType / updateOffsetForSwapType) -/

/-- value of one entry of a swap's loose parameter map
(Go `map[string]interface{}` holds bools, strings and unsigned integers). -/
inductive PVal where
  | b (x : Bool)
  | s (x : String)
  | n (x : Nat)
deriving Repr, DecidableEq

/-- a swap variant: its `SwapType` name string and its parameter map
(modelled as an association list in insertion order). -/
structure Swap where
  type : String
  params : List (String × PVal)
deriving Repr, DecidableEq

/-- decodeSwapType from src/main.go: decodes the venue-specific parameters
of the swap variant with the given one-byte tag, reading at `offset`.
Every read is bounds-checked by the source, so this function never panics;
an unrecognized tag decodes to a generic `Unknown_N` variant. -/
def decodeSwapType (swapTypeIndex : Nat) (data : List Nat) (offset : Nat) :
    GoResult Swap :=
  match swapTypeIndex with
  | 0 => .ok ⟨"Saber", []⟩
  | 1 => .ok ⟨"SaberAddDecimalsDeposit", []⟩
  | 2 => .ok ⟨"SaberAddDecimalsWithdraw", []⟩
  | 3 => .ok ⟨"TokenSwap", []⟩
  | 4 => .ok ⟨"Sencha", []⟩
  | 5 => .ok ⟨"Step", []⟩
  | 6 => .ok ⟨"Cropper", []⟩
  | 7 => .ok ⟨"Raydium", []⟩
  | 8 =>
    if offset + 1 > data.length then .err "not enough data for Crema swap"
    else .ok ⟨"Crema", [("a_to_b", .b (decide (data.getD offset 0 ≠ 0)))]⟩
  | 9 => .ok ⟨"Lifinity", []⟩
  | 10 => .ok ⟨"Mercurial", []⟩
  | 11 => .ok ⟨"Cykura", []⟩
  | 12 =>
    if offset + 1 > data.length then .err "not enough data for Serum swap"
    else .ok ⟨"Serum", [("side", .s (if data.getD offset 0 ≠ 0 then "Ask" else "Bid"))]⟩
  | 13 => .ok ⟨"MarinadeDeposit", []⟩
  | 14 => .ok ⟨"MarinadeUnstake", []⟩
  | 15 =>
    if offset + 1 > data.length then .err "not enough data for Aldrin swap"
    else .ok ⟨"Aldrin", [("side", .s (if data.getD offset 0 ≠ 0 then "Ask" else "Bid"))]⟩
  | 16 =>
    if offset + 1 > data.length then .err "not enough data for AldrinV2 swap"
    else .ok ⟨"AldrinV2", [("side", .s (if data.getD offset 0 ≠ 0 then "Ask" else "Bid"))]⟩
  | 17 =>
    if offset + 1 > data.length then .err "not enough data for Whirlpool swap"
    else .ok ⟨"Whirlpool", [("a_to_b", .b (decide (data.getD offset 0 ≠ 0)))]⟩
  | 18 =>
    if offset + 1 > data.length then .err "not enough data for Invariant swap"
    else .ok ⟨"Invariant", [("x_to_y", .b (decide (data.getD offset 0 ≠ 0)))]⟩
  | 19 => .ok ⟨"Meteora", []⟩
  | 20 => .ok ⟨"GooseFX", []⟩
  | 21 =>
    if offset + 1 > data.length then .err "not enough data for DeltaFi swap"
    else .ok ⟨"DeltaFi", [("stable", .b (decide (data.getD offset 0 ≠ 0)))]⟩
  | 22 => .ok ⟨"Balansol", []⟩
  | 23 =>
    if offset + 1 > data.length then .err "not enough data for MarcoPolo swap"
    else .ok ⟨"MarcoPolo", [("x_to_y", .b (decide (data.getD offset 0 ≠ 0)))]⟩
  | 24 =>
    if offset + 1 > data.length then .err "not enough data for Dradex swap"
    else .ok ⟨"Dradex", [("side", .s (if data.getD offset 0 ≠ 0 then "Ask" else "Bid"))]⟩
  | 25 => .ok ⟨"LifinityV2", []⟩
  | 26 => .ok ⟨"RaydiumClmm", []⟩
  | 27 =>
    if offset + 1 > data.length then .err "not enough data for Openbook swap"
    else .ok ⟨"Openbook", [("side", .s (if data.getD offset 0 ≠ 0 then "Ask" else "Bid"))]⟩
  | 28 =>
    if offset + 1 > data.length then .err "not enough data for Phoenix swap"
    else .ok ⟨"Phoenix", [("side", .s (if data.getD offset 0 ≠ 0 then "Ask" else "Bid"))]⟩
  | 29 =>
    if offset + 16 > data.length then .err "not enough data for Symmetry swap"
    else .ok ⟨"Symmetry",
      [("from_token_id", .n (leUint (slice data offset (offset + 8)))),
       ("to_token_id", .n (leUint (slice data (offset + 8) (offset + 16))))]⟩
  | 30 => .ok ⟨"TokenSwapV2", []⟩
  | 31 => .ok ⟨"HeliumTreasuryManagementRedeemV0", []⟩
  | 32 => .ok ⟨"StakeDexStakeWrappedSol", []⟩
  | 33 =>
    if offset + 4 > data.length then .err "not enough data for StakeDexSwapViaStake swap"
    else .ok ⟨"StakeDexSwapViaStake",
      [("bridge_stake_seed", .n (leUint (slice data offset (offset + 4))))]⟩
  | 34 => .ok ⟨"GooseFXV2", []⟩
  | 35 => .ok ⟨"Perps", []⟩
  | 36 => .ok ⟨"PerpsAddLiquidity", []⟩
  | 37 => .ok ⟨"PerpsRemoveLiquidity", []⟩
  | 38 => .ok ⟨"MeteoraDlmm", []⟩
  | 39 =>
    if offset + 1 > data.length then .err "not enough data for OpenBookV2 swap"
    else .ok ⟨"OpenBookV2", [("side", .s (if data.getD offset 0 ≠ 0 then "Ask" else "Bid"))]⟩
  | 40 => .ok ⟨"RaydiumClmmV2", []⟩
  | 41 =>
    if offset + 4 > data.length then
      .err "not enough data for StakeDexPrefundWithdrawStake swap"
    else .ok ⟨"StakeDexPrefundWithdrawStakeAndDepositStake",
      [("bridge_stake_seed", .n (leUint (slice data offset (offset + 4))))]⟩
  | 42 =>
    if offset + 3 > data.length then .err "not enough data for Clone swap"
    else .ok ⟨"Clone",
      [("pool_index", .n (data.getD offset 0)),
       ("quantity_is_input", .b (decide (data.getD (offset + 1) 0 ≠ 0))),
       ("quantity_is_collateral", .b (decide (data.getD (offset + 2) 0 ≠ 0)))]⟩
  | 43 =>
    if offset + 10 > data.length then .err "not enough data for SanctumS swap"
    else .ok ⟨"SanctumS",
      [("src_lst_value_calc_accs", .n (data.getD offset 0)),
       ("dst_lst_value_calc_accs", .n (data.getD (offset + 1) 0)),
       ("src_lst_index", .n (leUint (slice data (offset + 2) (offset + 6)))),
       ("dst_lst_index", .n (leUint (slice data (offset + 6) (offset + 10))))]⟩
  | 44 =>
    if offset + 5 > data.length then .err "not enough data for SanctumSAddLiquidity swap"
    else .ok ⟨"SanctumSAddLiquidity",
      [("lst_value_calc_accs", .n (data.getD offset 0)),
       ("lst_index", .n (leUint (slice data (offset + 1) (offset + 5))))]⟩
  | 45 =>
    if offset + 5 > data.length then .err "not enough data for SanctumSRemoveLiquidity swap"
    else .ok ⟨"SanctumSRemoveLiquidity",
      [("lst_value_calc_accs", .n (data.getD offset 0)),
       ("lst_index", .n (leUint (slice data (offset + 1) (offset + 5))))]⟩
  | 46 => .ok ⟨"RaydiumCP", []⟩
  | 47 =>
    if offset + 1 > data.length then .err "not enough data for WhirlpoolSwapV2 swap"
    else .ok ⟨"WhirlpoolSwapV2", [("a_to_b", .b (decide (data.getD offset 0 ≠ 0)))]⟩
  | 48 => .ok ⟨"OneIntro", []⟩
  | 49 => .ok ⟨"PumpdotfunWrappedBuy", []⟩
  | 50 => .ok ⟨"PumpdotfunWrappedSell", []⟩
  | 51 => .ok ⟨"PerpsV2", []⟩
  | 52 => .ok ⟨"PerpsV2AddLiquidity", []⟩
  | 53 => .ok ⟨"PerpsV2RemoveLiquidity", []⟩
  | 54 => .ok ⟨"MoonshotWrappedBuy", []⟩
  | 55 => .ok ⟨"MoonshotWrappedSell", []⟩
  | 56 => .ok ⟨"StabbleStableSwap", []⟩
  | 57 => .ok ⟨"StabbleWeightedSwap", []⟩
  | 58 =>
    if offset + 1 > data.length then .err "not enough data for Obric swap"
    else .ok ⟨"Obric", [("x_to_y", .b (decide (data.getD offset 0 ≠ 0)))]⟩
  | 59 => .ok ⟨"FoxBuyFromEstimatedCost", []⟩
  | 60 =>
    if offset + 1 > data.length then .err "not enough data for FoxClaimPartial swap"
    else .ok ⟨"FoxClaimPartial", [("is_y", .b (decide (data.getD offset 0 ≠ 0)))]⟩
  | 61 =>
    if offset + 1 > data.length then .err "not enough data for SolFi swap"
    else .ok ⟨"SolFi", [("is_quote_to_base", .b (decide (data.getD offset 0 ≠ 0)))]⟩
  | 76 => .ok ⟨"Woofi", []⟩
  | 108 => .ok ⟨"PumpdotfunAmmBuy", []⟩
  | 109 => .ok ⟨"PumpdotfunAmmSell", []⟩
  | _ => .ok ⟨"Unknown_" ++ toString swapTypeIndex, []⟩

/-- updateOffsetForSwapType from src/main.go: advances the cursor past the
parameter bytes of the given tag. -/
def updateOffsetForSwapType (swapTypeIndex offset : Nat) : Nat :=
  match swapTypeIndex with
  | 8 | 12 | 15 | 16 | 17 | 18 | 21 | 23 | 24 | 27 | 28 | 39 | 47 | 58 | 60 | 61 =>
    offset + 1
  | 29 => offset + 16
  | 33 | 41 => offset + 4
  | 42 => offset + 3
  | 43 => offset + 10
  | 44 | 45 => offset + 5
  | _ => offset

/-! ## Route-plan steps and the instruction decoders -/

/-- one hop of the route plan. -/
structure RoutePlanStep where
  swap : Swap
  percent : Nat
  inputIndex : Nat
  outputIndex : Nat
deriving Repr, DecidableEq

/-- parseRoutePlanStep from src/main.go.  After the initial `offset+4`
length check and the variant decode, the percent/input-index/output-index
bytes are read without further bounds checks, so those reads can panic when
the variant carried parameters that reach the end of the buffer. -/
def parseRoutePlanStep (data : List Nat) (offset : Nat) :
    GoResult (RoutePlanStep × Nat) :=
  if offset + 4 > data.length then .err "not enough data for route plan step"
  else
    let swapTypeIndex := data.getD offset 0
    match decodeSwapType swapTypeIndex data (offset + 1) with
    | .panicked => .panicked
    | .err m => .err m
    | .ok swap =>
      let off2 := updateOffsetForSwapType swapTypeIndex (offset + 1)
      match readByte data off2 with
      | .panicked => .panicked
      | .err m => .err m
      | .ok percent =>
        match readByte data (off2 + 1) with
        | .panicked => .panicked
        | .err m => .err m
        | .ok inputIndex =>
          match readByte data (off2 + 2) with
          | .panicked => .panicked
          | .err m => .err m
          | .ok outputIndex =>
            .ok (⟨swap, percent, inputIndex, outputIndex⟩, off2 + 3)

/-- the route-plan loop shared by every instruction decoder: parses `n`
more steps starting at index `i` and cursor `offset`, accumulating steps in
reverse.  A step failure is wrapped with the step index, as in the source. -/
def parseRoutePlanLoop (data : List Nat) :
    Nat → Nat → Nat → List RoutePlanStep → GoResult (List RoutePlanStep × Nat)
  | 0, _, offset, acc => .ok (acc.reverse, offset)
  | n + 1, i, offset, acc =>
    match parseRoutePlanStep data offset with
    | .panicked => .panicked
    | .err m => .err ("error parsing route plan step " ++ toString i ++ ": " ++ m)
    | .ok (step, newOffset) =>
      parseRoutePlanLoop data n (i + 1) newOffset (step :: acc)

/-- the decoded instruction (`JupiterSwapParams`).  Fields a constructor in
the source does not set carry Go's zero value. -/
structure JupiterSwapParams where
  instructionType : String
  id : Nat
  routePlan : List RoutePlanStep
  inAmount : Nat
  outAmount : Nat
  quotedOutAmount : Nat
  quotedInAmount : Nat
  slippageBps : Nat
  platformFeeBps : Nat
  minAmountOut : Nat
deriving Repr, DecidableEq

/-- parseRouteInstruction from src/main.go (route / routeWithTokenLedger).
The route-plan count and the trailing fields are read with unchecked slice
expressions, so a buffer that ends inside them panics. -/
def parseRouteInstruction (data : List Nat) (instructionType : String) :
    GoResult JupiterSwapParams :=
  match readSlice data 8 12 with
  | .panicked => .panicked
  | .err m => .err m
  | .ok countBytes =>
    match parseRoutePlanLoop data (leUint countBytes) 0 12 [] with
    | .panicked => .panicked
    | .err m => .err m
    | .ok (routePlan, offset) =>
      match readSlice data offset (offset + 8) with
      | .panicked => .panicked
      | .err m => .err m
      | .ok inBytes =>
        match readSlice data (offset + 8) (offset + 16) with
        | .panicked => .panicked
        | .err m => .err m
        | .ok quotedOutBytes =>
          match readSlice data (offset + 16) (offset + 18) with
          | .panicked => .panicked
          | .err m => .err m
          | .ok slipBytes =>
            match readByte data (offset + 18) with
            | .panicked => .panicked
            | .err m => .err m
            | .ok platformFeeBps =>
              .ok { instructionType := instructionType, id := 0,
                    routePlan := routePlan, inAmount := leUint inBytes,
                    outAmount := 0, quotedOutAmount := leUint quotedOutBytes,
                    quotedInAmount := 0, slippageBps := leUint slipBytes,
                    platformFeeBps := platformFeeBps,
                    minAmountOut := minAmountOutGo (leUint quotedOutBytes) (leUint slipBytes) }

/-- parseSharedAccountsRoute from src/main.go: a leading id byte at offset
8, the route-plan count at bytes 9..12, steps from offset 13, then trailing
fields whose meaning depends on whether the instruction is
sharedAccountsExactOutRoute. -/
def parseSharedAccountsRoute (data : List Nat) (instructionType : String) :
    GoResult JupiterSwapParams :=
  match readByte data 8 with
  | .panicked => .panicked
  | .err m => .err m
  | .ok id =>
    match readSlice data 9 13 with
    | .panicked => .panicked
    | .err m => .err m
    | .ok countBytes =>
      match parseRoutePlanLoop data (leUint countBytes) 0 13 [] with
      | .panicked => .panicked
      | .err m => .err m
      | .ok (routePlan, offset) =>
        if instructionType = "sharedAccountsExactOutRoute" then
          match readSlice data offset (offset + 8) with
          | .panicked => .panicked
          | .err m => .err m
          | .ok quotedOutBytes =>
            match readSlice data (offset + 8) (offset + 16) with
            | .panicked => .panicked
            | .err m => .err m
            | .ok inBytes =>
              match readSlice data (offset + 16) (offset + 18) with
              | .panicked => .panicked
              | .err m => .err m
              | .ok slipBytes =>
                match readByte data (offset + 18) with
                | .panicked => .panicked
                | .err m => .err m
                | .ok platformFeeBps =>
                  .ok { instructionType := instructionType, id := id,
                        routePlan := routePlan, inAmount := 0,
                        outAmount := leUint quotedOutBytes, quotedOutAmount := 0,
                        quotedInAmount := leUint inBytes, slippageBps := leUint slipBytes,
                        platformFeeBps := platformFeeBps,
                        minAmountOut := maxAmountInGo (leUint inBytes) (leUint slipBytes) }
        else
          match readSlice data offset (offset + 8) with
          | .panicked => .panicked
          | .err m => .err m
          | .ok inBytes =>
            match readSlice data (offset + 8) (offset + 16) with
            | .panicked => .panicked
            | .err m => .err m
            | .ok quotedOutBytes =>
              match readSlice data (offset + 16) (offset + 18) with
              | .panicked => .panicked
              | .err m => .err m
              | .ok slipBytes =>
                match readByte data (offset + 18) with
                | .panicked => .panicked
                | .err m => .err m
                | .ok platformFeeBps =>
                  .ok { instructionType := instructionType, id := id,
                        routePlan := routePlan, inAmount := leUint inBytes,
                        outAmount := 0, quotedOutAmount := leUint quotedOutBytes,
                        quotedInAmount := 0, slippageBps := leUint slipBytes,
                        platformFeeBps := platformFeeBps,
                        minAmountOut := minAmountOutGo (leUint quotedOutBytes) (leUint slipBytes) }

/-- parseExactOutRoute from src/main.go: like route, but the first trailing
u64 is the out amount, the second the quoted in amount, and the derived
field is the maximum input amount. -/
def parseExactOutRoute (data : List Nat) (instructionType : String) :
    GoResult JupiterSwapParams :=
  match readSlice data 8 12 with
  | .panicked => .panicked
  | .err m => .err m
  | .ok countBytes =>
    match parseRoutePlanLoop data (leUint countBytes) 0 12 [] with
    | .panicked => .panicked
    | .err m => .err m
    | .ok (routePlan, offset) =>
      match readSlice data offset (offset + 8) with
      | .panicked => .panicked
      | .err m => .err m
      | .ok outBytes =>
        match readSlice data (offset + 8) (offset + 16) with
        | .panicked => .panicked
        | .err m => .err m
        | .ok quotedInBytes =>
          match readSlice data (offset + 16) (offset + 18) with
          | .panicked => .panicked
          | .err m => .err m
          | .ok slipBytes =>
            match readByte data (offset + 18) with
            | .panicked => .panicked
            | .err m => .err m
            | .ok platformFeeBps =>
              .ok { instructionType := instructionType, id := 0,
                    routePlan := routePlan, inAmount := 0,
                    outAmount := leUint outBytes, quotedOutAmount := 0,
                    quotedInAmount := leUint quotedInBytes, slippageBps := leUint slipBytes,
                    platformFeeBps := platformFeeBps,
                    minAmountOut := maxAmountInGo (leUint quotedInBytes) (leUint slipBytes) }

/-- the hex rendering used by `fmt.Errorf("...: %X", discriminator)`. -/
def hexDigit (n : Nat) : Char := "0123456789ABCDEF".toList.getD n '0'

/-- uppercase hex of a byte list, two digits per byte. -/
def hexBytes (l : List Nat) : String :=
  String.mk (l.flatMap fun b => [hexDigit (b / 16), hexDigit (b % 16)])

/-- the six 8-byte instruction discriminators (InstructionDiscriminators). -/
def routeDisc : List Nat := [0xE5, 0x17, 0xCB, 0x97, 0x7A, 0xE3, 0xAD, 0x2A]

/-- discriminator of routeWithTokenLedger. -/
def routeWithTokenLedgerDisc : List Nat := [0x96, 0x56, 0x47, 0x74, 0xA7, 0x5D, 0x0E, 0x68]

/-- discriminator of sharedAccountsRoute. -/
def sharedAccountsRouteDisc : List Nat := [0xC1, 0x20, 0x9B, 0x33, 0x41, 0xD6, 0x9C, 0x81]

/-- discriminator of sharedAccountsRouteWithTokenLedger. -/
def sharedAccountsRouteWithTokenLedgerDisc : List Nat :=
  [0xE6, 0x79, 0x8F, 0x50, 0x77, 0x9F, 0x6A, 0xAA]

/-- discriminator of exactOutRoute. -/
def exactOutRouteDisc : List Nat := [0xD0, 0x33, 0xEF, 0x97, 0x7B, 0x2B, 0xED, 0x5C]

/-- discriminator of sharedAccountsExactOutRoute. -/
def sharedAccountsExactOutRouteDisc : List Nat :=
  [0xB0, 0xD1, 0x69, 0xA8, 0x9A, 0x7D, 0x45, 0x3E]

/-- parseJupiterV6Instruction from src/main.go: length check, then
discriminator dispatch over the six known instruction shapes
(`bytesEqual` on equal-length byte lists is list equality). -/
def parseJupiterV6Instruction (data : List Nat) : GoResult JupiterSwapParams :=
  if data.length < 8 then .err "instruction data too short"
  else
    if data.take 8 = routeDisc then
      parseRouteInstruction data "route"
    else if data.take 8 = routeWithTokenLedgerDisc then
      parseRouteInstruction data "routeWithTokenLedger"
    else if data.take 8 = sharedAccountsRouteDisc then
      parseSharedAccountsRoute data "sharedAccountsRoute"
    else if data.take 8 = sharedAccountsRouteWithTokenLedgerDisc then
      parseSharedAccountsRoute data "sharedAccountsRouteWithTokenLedger"
    else if data.take 8 = exactOutRouteDisc then
      parseExactOutRoute data "exactOutRoute"
    else if data.take 8 = sharedAccountsExactOutRouteDisc then
      parseSharedAccountsRoute data "sharedAccountsExactOutRoute"
    else
      .err ("unknown instruction discriminator: " ++ hexBytes (data.take 8))

/-! ## Event decoder -/

/-- SwapEventDiscriminator: the fixed 8-byte event discriminator. -/
def SwapEventDiscriminator : List Nat := [0xe4, 0x45, 0xa5, 0x2e, 0x51, 0xcb, 0x9a, 0x1d]

/-- the decoded swap event.  Addresses (`solana.PublicKey`) are kept as
their 32 raw bytes. -/
structure SwapEvent where
  discriminator : List Nat
  unknown : List Nat
  amm : List Nat
  inputMint : List Nat
  inputAmount : Nat
  outputMint : List Nat
  outputAmount : Nat
deriving Repr, DecidableEq

/-- parseJupiterSwapEvent from src/main.go: fixed 128-byte layout, with a
length check and a discriminator check before any field read. -/
def parseJupiterSwapEvent (data : List Nat) : GoResult SwapEvent :=
  if data.length < 128 then
    .err ("swap event data too short: " ++ toString data.length ++ " bytes")
  else if data.take 8 ≠ SwapEventDiscriminator then
    .err "invalid swap event discriminator"
  else
    .ok { discriminator := slice data 0 8
          unknown := slice data 8 16
          amm := slice data 16 48
          inputMint := slice data 48 80
          inputAmount := leUint (slice data 80 88)
          outputMint := slice data 88 120
          outputAmount := leUint (slice data 120 128) }

/-- parseJupiterSwapEventFromBase58 from src/main.go.  Despite its name it
performs no base58 (or base64) decoding: Go's `[]byte(s)` conversion yields
the raw bytes of the string, so the function simply runs the event decoder
on the literal string bytes.  Go strings are byte sequences and are
modelled as `List Nat`. -/
def parseJupiterSwapEventFromBase58 (base58Data : List Nat) : GoResult SwapEvent :=
  parseJupiterSwapEvent base58Data

/-! ## Base58 (external solana-go library collaborators)

`PublicKey.String()` renders 32 key bytes in Bitcoin-alphabet base58, and
the hardcoded program id is the base58 decoding of a literal.  Both live in
the external `solana-go` dependency, not in src/, and are modelled here
directly as standard base58. -/

/-- the Bitcoin base58 alphabet. -/
def base58Alphabet : List Char :=
  "123456789ABCDEFGHJKLMNPQRSTUVWXYZabcdefghijkmnopqrstuvwxyz".toList

/-- base58 digits of `n`, least significant first, fuel-based. -/
def natToBase58 : Nat → Nat → List Char
  | 0, _ => []
  | _ + 1, 0 => []
  | f + 1, n => base58Alphabet.getD (n % 58) '1' :: natToBase58 f (n / 58)

/-- number of leading zero bytes (each rendered as a leading `1`). -/
def leadingZeros : List Nat → Nat
  | [] => 0
  | b :: t => if b = 0 then 1 + leadingZeros t else 0

/-- big-endian value of a byte list. -/
def beNat (bytes : List Nat) : Nat := bytes.foldl (fun acc b => acc * 256 + b) 0

/-- `solana.PublicKey.String()`: base58 rendering of the 32 key bytes. -/
def pkString (pk : List Nat) : String :=
  String.mk (List.replicate (leadingZeros pk) '1'
    ++ (natToBase58 (2 * pk.length + 64) (beNat pk)).reverse)

/-- value of a base58 digit list (most significant first). -/
def base58DecodeNat (s : List Char) : Nat :=
  s.foldl (fun acc c => acc * 58 + base58Alphabet.indexOf c) 0

/-- big-endian bytes of `n`, left-padded with zeros to the given width. -/
def natToBytesBE : Nat → Nat → List Nat
  | 0, _ => []
  | f + 1, n => natToBytesBE f (n / 256) ++ [n % 256]

/-- jupiterV6ProgramID: the 32 bytes of
JUP6LkbZbjS1jKKwapdHNy74zcZ3tLUZoi5QNyVTaV4. -/
def jupiterV6ProgramID : List Nat :=
  natToBytesBE 32 (base58DecodeNat "JUP6LkbZbjS1jKKwapdHNy74zcZ3tLUZoi5QNyVTaV4".toList)

/-! ## Event extraction (extractJupiterEvents) -/

/-- one inner instruction as the rpc layer delivers it: a uint16 program-id
index and its data payload bytes. -/
structure InnerInstruction where
  programIDIndex : Nat
  data : List Nat
deriving Repr, DecidableEq

/-- one inner-instruction group (`rpc.InnerInstruction`): the instruction
list scanned in order. -/
structure InnerInstructionGroup where
  instructions : List InnerInstruction
deriving Repr, DecidableEq

/-- transaction metadata: inner instruction groups and log messages, each a
possibly-nil slice.  Log messages are Go strings, i.e. byte lists. -/
structure TxMeta where
  innerInstructions : Option (List InnerInstructionGroup)
  logMessages : Option (List (List Nat))
deriving Repr, DecidableEq

/-- the parsed transaction message: its account-key list (32-byte keys). -/
structure ParsedMessage where
  accountKeys : List (List Nat)
deriving Repr, DecidableEq

/-- a `rpc.GetTransactionResult`: possibly-nil metadata, and the result of
`tx.Transaction.GetTransaction()` (`none` models a decode error there). -/
structure TxResult where
  meta : Option TxMeta
  transaction : Option ParsedMessage
deriving Repr, DecidableEq

/-- whether `sub` starts the list `s` (`strings.HasPrefix` on bytes). -/
def startsWith : List Nat → List Nat → Bool
  | _, [] => true
  | [], _ :: _ => false
  | a :: s, b :: t => a == b && startsWith s t

/-- index of the first occurrence of `sub` in `s`, if any
(the scan underlying `strings.Contains` / `strings.Split`). -/
def findSub : List Nat → List Nat → Option Nat
  | [], sub => if startsWith [] sub then some 0 else none
  | a :: rest, sub =>
    if startsWith (a :: rest) sub then some 0
    else (findSub rest sub).map (· + 1)

/-- `strings.Split(s, sep)` for a nonempty separator: the pieces of `s`
around every non-overlapping occurrence of `sep`, left to right. -/
def splitSub (sep : List Nat) : Nat → List Nat → List (List Nat)
  | 0, s => [s]
  | fuel + 1, s =>
    match findSub s sep with
    | none => [s]
    | some i => s.take i :: splitSub sep fuel (s.drop (i + sep.length))

/-- ASCII whitespace (`strings.TrimSpace` also trims a few non-ASCII
Unicode spaces; no claim depends on those, so the model trims ASCII). -/
def isSpaceByte (b : Nat) : Bool := b == 32 || (9 ≤ b && b ≤ 13)

/-- `strings.TrimSpace` on string bytes. -/
def trimSpace (s : List Nat) : List Nat :=
  ((s.dropWhile isSpaceByte).reverse.dropWhile isSpaceByte).reverse

/-- the byte sequence of the log marker `"Program data: "`. -/
def programDataMarker : List Nat := "Program data: ".toList.map Char.toNat

/-- the body of the inner-instruction loop of extractJupiterEvents: appends
the parsed event when the program id resolves to the Jupiter program and
the data is exactly 128 bytes starting with the event discriminator.
`uint16(len(accountKeys))` truncates the length modulo 2^16 before the
index comparison, as in the source. -/
def processInnerInstruction (keys : List (List Nat)) (evs : List SwapEvent)
    (inst : InnerInstruction) : List SwapEvent :=
  if inst.programIDIndex < keys.length % 65536 then
    if keys.getD inst.programIDIndex [] = jupiterV6ProgramID then
      if inst.data.length = 128 then
        if inst.data.take 8 = SwapEventDiscriminator then
          match parseJupiterSwapEvent inst.data with
          | .ok event => evs ++ [event]
          | .err _ => evs
          | .panicked => evs
        else evs
      else evs
    else evs
  else evs

/-- the inner-instruction scan of extractJupiterEvents: every group's
instruction list, in order. -/
def innerScan (keys : List (List Nat)) (groups : List InnerInstructionGroup)
    (events : List SwapEvent) : List SwapEvent :=
  groups.foldl (fun evs1 innerInst =>
    innerInst.instructions.foldl (processInnerInstruction keys) evs1) events

/-- the body of the log loop of extractJupiterEvents: for a log line
containing the marker, takes the text between the first and second marker
occurrence (`strings.Split(...)[1]`), trims whitespace, and tries the event
decoder on those literal bytes. -/
def processLogMessage (evs : List SwapEvent) (logMsg : List Nat) : List SwapEvent :=
  if (findSub logMsg programDataMarker).isSome then
    if 1 < (splitSub programDataMarker (logMsg.length + 1) logMsg).length then
      match parseJupiterSwapEventFromBase58
          (trimSpace ((splitSub programDataMarker (logMsg.length + 1) logMsg).getD 1 [])) with
      | .ok event => evs ++ [event]
      | .err _ => evs
      | .panicked => evs
    else evs
  else evs

/-- the log scan of extractJupiterEvents, in log order. -/
def logScan (logs : List (List Nat)) (events : List SwapEvent) : List SwapEvent :=
  logs.foldl processLogMessage events

/-- extractJupiterEvents from src/main.go: scans inner instructions first,
then log lines, appending events in discovery order; missing metadata or a
failed transaction decode yields the empty list. -/
def extractJupiterEvents (tx : TxResult) : List SwapEvent :=
  match tx.meta with
  | none => []
  | some meta =>
    match meta.innerInstructions with
    | none => []
    | some groups =>
      match tx.transaction with
      | none => []
      | some parseTx =>
        let events := innerScan parseTx.accountKeys groups []
        match meta.logMessages with
        | none => events
        | some logs => logScan logs events

/-! ## Summary generation -/

/-- SwapSummary from src/main.go. -/
structure SwapSummary where
  totalSwaps : Nat
  inputToken : String
  outputToken : String
  totalInput : Nat
  totalOutput : Nat
  route : String
deriving Repr, DecidableEq

/-- generateSwapSummary from src/main.go: event count, first event's input
side, last event's output side, and the route string joining the first
input mint with every output mint via " -> ".  The instruction list is
taken but never used, as in the source. -/
def generateSwapSummary (instructions : List JupiterSwapParams)
    (events : List SwapEvent) : SwapSummary :=
  let summary : SwapSummary :=
    { totalSwaps := events.length, inputToken := "", outputToken := "",
      totalInput := 0, totalOutput := 0, route := "" }
  match events with
  | [] => summary
  | e :: es =>
    let inputToken := pkString e.inputMint
    let totalInput := e.inputAmount
    let lastEvent := es.getLastD e
    let route := inputToken :: (e :: es).map fun event => pkString event.outputMint
    { summary with
        inputToken := inputToken, totalInput := totalInput,
        outputToken := pkString lastEvent.outputMint,
        totalOutput := lastEvent.outputAmount,
        route := String.intercalate " -> " route }

/-! ## Specification-side definitions

These restate parts of the spec in a form independent of the loop
structure of the source, for comparison against the embedding above. -/

/-- drops error and panic outcomes, keeping a successful value. -/
def GoResult.toOption : GoResult α → Option α
  | .ok a => some a
  | .err _ => none
  | .panicked => none

/-- the parameter-carrying tags of the §4.1 table. -/
def paramTags : List Nat :=
  [8, 12, 15, 16, 17, 18, 21, 23, 24, 27, 28, 39, 47, 58, 60, 61,
   29, 33, 41, 42, 43, 44, 45]

/-- the recognized tags: 0..61 and the sparse 76, 108, 109. -/
def recognizedTags : List Nat := List.range 62 ++ [76, 108, 109]

/-- the event, if any, that one inner instruction contributes. -/
def innerCandidate (keys : List (List Nat)) (inst : InnerInstruction) :
    Option SwapEvent :=
  if inst.programIDIndex < keys.length % 65536 then
    if keys.getD inst.programIDIndex [] = jupiterV6ProgramID then
      if inst.data.length = 128 then
        if inst.data.take 8 = SwapEventDiscriminator then
          (parseJupiterSwapEvent inst.data).toOption
        else none
      else none
    else none
  else none

/-- the event, if any, that one log line contributes. -/
def logCandidate (logMsg : List Nat) : Option SwapEvent :=
  if (findSub logMsg programDataMarker).isSome then
    if 1 < (splitSub programDataMarker (logMsg.length + 1) logMsg).length then
      (parseJupiterSwapEventFromBase58
        (trimSpace ((splitSub programDataMarker (logMsg.length + 1) logMsg).getD 1 []))).toOption
    else none
  else none

/-- the events a transaction's inner instructions contribute, in scan
order (empty whenever the extraction gates fail). -/
def innerEventsOf (tx : TxResult) : List SwapEvent :=
  match tx.meta with
  | none => []
  | some meta =>
    match meta.innerInstructions with
    | none => []
    | some groups =>
      match tx.transaction with
      | none => []
      | some parseTx =>
        (groups.flatMap fun g => g.instructions).filterMap
          (innerCandidate parseTx.accountKeys)

/-- the events a transaction's log lines contribute, in scan order
(empty whenever the extraction gates fail). -/
def logEventsOf (tx : TxResult) : List SwapEvent :=
  match tx.meta with
  | none => []
  | some meta =>
    match meta.innerInstructions, tx.transaction with
    | some _, some _ =>
      match meta.logMessages with
      | none => []
      | some logs => logs.filterMap logCandidate
    | _, _ => []

/-! ## Helper lemmas -/

theorem readByte_ok {data : List Nat} {i b : Nat}
    (h : readByte data i = .ok b) : b = data.getD i 0 ∧ i < data.length := by
  unfold readByte at h
  split at h
  · next hlt =>
    injection h with h
    subst h
    exact ⟨rfl, hlt⟩
  · exact GoResult.noConfusion h

theorem readSlice_ok {data : List Nat} {a b : Nat} {s : List Nat}
    (h : readSlice data a b = .ok s) :
    s = slice data a b ∧ a ≤ b ∧ b ≤ data.length := by
  unfold readSlice at h
  split at h
  · next hab =>
    injection h with h
    subst h
    exact ⟨rfl, hab.1, hab.2⟩
  · exact GoResult.noConfusion h

theorem parseRouteInstruction_ok_type {data : List Nat} {kind : String}
    {r : JupiterSwapParams} (h : parseRouteInstruction data kind = .ok r) :
    r.instructionType = kind := by
  unfold parseRouteInstruction at h
  repeat' split at h
  all_goals first
    | exact GoResult.noConfusion h
    | (injection h with h; subst h; rfl)

theorem parseSharedAccountsRoute_ok_type {data : List Nat} {kind : String}
    {r : JupiterSwapParams} (h : parseSharedAccountsRoute data kind = .ok r) :
    r.instructionType = kind := by
  unfold parseSharedAccountsRoute at h
  repeat' split at h
  all_goals first
    | exact GoResult.noConfusion h
    | (injection h with h; subst h; rfl)

theorem parseExactOutRoute_ok_type {data : List Nat} {kind : String}
    {r : JupiterSwapParams} (h : parseExactOutRoute data kind = .ok r) :
    r.instructionType = kind := by
  unfold parseExactOutRoute at h
  repeat' split at h
  all_goals first
    | exact GoResult.noConfusion h
    | (injection h with h; subst h; rfl)

/-! ## Claims -/

/-- C1: decoding a route-plan step's swap variant consumes exactly the
parameter width of the §4.1 table for its one-byte tag (1 byte for tags
8,12,15,16,17,18,21,23,24,27,28,39,47,58,60,61; 16 for tag 29; 4 for tags
33 and 41; 3 for tag 42; 10 for tag 43; 5 for tags 44 and 45; 0 for every
other recognized tag), and every tag outside {0..61, 76, 108, 109} decodes
to the generic unknown-tag variant with no parameters and width 0, never an
error. -/
theorem swapVariantWidths (off : Nat) (data : List Nat) :
    (∀ t ∈ ([8, 12, 15, 16, 17, 18, 21, 23, 24, 27, 28, 39, 47, 58, 60, 61] : List Nat),
        updateOffsetForSwapType t off = off + 1)
  ∧ updateOffsetForSwapType 29 off = off + 16
  ∧ (∀ t ∈ ([33, 41] : List Nat), updateOffsetForSwapType t off = off + 4)
  ∧ updateOffsetForSwapType 42 off = off + 3
  ∧ updateOffsetForSwapType 43 off = off + 10
  ∧ (∀ t ∈ ([44, 45] : List Nat), updateOffsetForSwapType t off = off + 5)
  ∧ (∀ t, t ∉ paramTags → updateOffsetForSwapType t off = off)
  ∧ (∀ t, t ∉ recognizedTags →
      decodeSwapType t data off = .ok ⟨"Unknown_" ++ toString t, []⟩) := by
  refine ⟨?_, rfl, ?_, rfl, rfl, ?_, ?_, ?_⟩
  · intro t ht; fin_cases ht <;> rfl
  · intro t ht; fin_cases ht <;> rfl
  · intro t ht; fin_cases ht <;> rfl
  · intro t ht
    unfold updateOffsetForSwapType
    split <;> first | rfl | exact absurd (by decide) ht
  · intro t ht
    unfold decodeSwapType
    split <;> first | rfl | exact absurd (by decide) ht

/-- Witness for C1: tag 8 consumes 1 byte, tag 29 consumes 16 bytes, and
the unrecognized tag 62 decodes to the generic unknown variant. -/
theorem swapVariantWidths_witness :
    updateOffsetForSwapType 8 3 = 4
  ∧ updateOffsetForSwapType 29 3 = 19
  ∧ decodeSwapType 62 [] 0 = .ok ⟨"Unknown_62", []⟩ := by
  refine ⟨(swapVariantWidths 3 []).1 8 (by decide), (swapVariantWidths 3 []).2.1, ?_⟩
  exact (((swapVariantWidths 0 []).2.2.2.2.2.2.2) 62 (by decide)).trans (by decide)

/-- C2 (evaluation at the failing input): contrary to the specified
`TruncatedBuffer` error, a buffer holding only the 8-byte route
discriminator makes the decoder panic (the unchecked slice `data[8:12]`
reading the route-plan count), and a route instruction truncated before its
trailing amount fields panics as well (`data[offset:offset+8]`). -/
theorem truncatedRoutePanics :
    parseJupiterV6Instruction routeDisc = .panicked
  ∧ parseJupiterV6Instruction (routeDisc ++ [0, 0, 0, 0]) = .panicked := by
  exact ⟨by decide, by decide⟩

/-- C7: the derived minAmountOut of route / routeWithTokenLedger is the u64
truncation of the float64 product `quotedOutAmount * (1 - slippageBps/10000)`
(`minAmountOutGo` is the exact model of that float64 computation), and at
quotedOutAmount = 1000000, slippageBps = 50 it equals 995000. -/
theorem minAmountOutFormula :
    (∀ (data : List Nat) (kind : String) (r : JupiterSwapParams),
        parseRouteInstruction data kind = .ok r →
        r.minAmountOut = minAmountOutGo r.quotedOutAmount r.slippageBps)
  ∧ minAmountOutGo 1000000 50 = 995000 := by
  constructor
  · intro data kind r h
    unfold parseRouteInstruction at h
    repeat' split at h
    all_goals first
      | exact GoResult.noConfusion h
      | (injection h with h; subst h; rfl)
  · decide

/-- Witness for C7: a concrete route instruction with quotedOutAmount
1000000 and slippageBps 50 decodes with minAmountOut 995000. -/
theorem minAmountOutFormula_witness :
    parseRouteInstruction
      [0xE5, 0x17, 0xCB, 0x97, 0x7A, 0xE3, 0xAD, 0x2A, 0, 0, 0, 0,
       1, 0, 0, 0, 0, 0, 0, 0, 64, 66, 15, 0, 0, 0, 0, 0, 50, 0, 5] "route"
      = .ok { instructionType := "route", id := 0, routePlan := [],
              inAmount := 1, outAmount := 0, quotedOutAmount := 1000000,
              quotedInAmount := 0, slippageBps := 50, platformFeeBps := 5,
              minAmountOut := 995000 }
  ∧ (995000 : Nat) = minAmountOutGo 1000000 50 := by
  have h : parseRouteInstruction
      [0xE5, 0x17, 0xCB, 0x97, 0x7A, 0xE3, 0xAD, 0x2A, 0, 0, 0, 0,
       1, 0, 0, 0, 0, 0, 0, 0, 64, 66, 15, 0, 0, 0, 0, 0, 50, 0, 5] "route"
      = .ok { instructionType := "route", id := 0, routePlan := [],
              inAmount := 1, outAmount := 0, quotedOutAmount := 1000000,
              quotedInAmount := 0, slippageBps := 50, platformFeeBps := 5,
              minAmountOut := 995000 } := by decide
  exact ⟨h, minAmountOutFormula.1 _ _ _ h⟩

/-- C10: the log-line event decoder applies no base58/base64 decoding — it
runs the event decoder on the literal bytes of the string — so a log-line
candidate yields an event only when the literal text is at least 128 bytes
long and begins with the 8 binary discriminator bytes. -/
theorem logEventNoDecoding (s : List Nat) :
    parseJupiterSwapEventFromBase58 s = parseJupiterSwapEvent s
  ∧ (∀ e, parseJupiterSwapEventFromBase58 s = .ok e →
      128 ≤ s.length ∧ s.take 8 = SwapEventDiscriminator) := by
  refine ⟨rfl, ?_⟩
  intro e he
  unfold parseJupiterSwapEventFromBase58 parseJupiterSwapEvent at he
  split at he
  · exact GoResult.noConfusion he
  split at he
  · exact GoResult.noConfusion he
  next h128 hd => exact ⟨by omega, not_not.mp hd⟩

set_option maxRecDepth 4000

/-- Witness for C10: a 128-byte candidate starting with the discriminator
decodes, and the theorem recovers its length and discriminator facts. -/
theorem logEventNoDecoding_witness :
    128 ≤ (SwapEventDiscriminator ++ List.replicate 120 0).length
  ∧ (SwapEventDiscriminator ++ List.replicate 120 0).take 8 = SwapEventDiscriminator := by
  refine (logEventNoDecoding (SwapEventDiscriminator ++ List.replicate 120 0)).2
    { discriminator := SwapEventDiscriminator, unknown := List.replicate 8 0,
      amm := List.replicate 32 0, inputMint := List.replicate 32 0,
      inputAmount := 0, outputMint := List.replicate 32 0, outputAmount := 0 }
    (by decide)

theorem parseJupiterSwapEvent_ok {data : List Nat} {e : SwapEvent}
    (h : parseJupiterSwapEvent data = .ok e) :
    e = { discriminator := slice data 0 8, unknown := slice data 8 16,
          amm := slice data 16 48, inputMint := slice data 48 80,
          inputAmount := leUint (slice data 80 88),
          outputMint := slice data 88 120,
          outputAmount := leUint (slice data 120 128) } := by
  unfold parseJupiterSwapEvent at h
  split at h
  · exact GoResult.noConfusion h
  split at h
  · exact GoResult.noConfusion h
  injection h with h
  exact h.symm

/-- C3: event decoding fails with the too-short error below 128 bytes,
fails with the bad-discriminator error when the first 8 bytes differ from
the event discriminator, succeeds otherwise with the five address/amount
fields taken from bytes [16:48), [48:80), [80:88), [88:120) and [120:128),
and those five fields are unchanged under any change to the opaque bytes
[8:16). -/
theorem eventDecode (data : List Nat) :
    (data.length < 128 →
      parseJupiterSwapEvent data =
        .err ("swap event data too short: " ++ toString data.length ++ " bytes"))
  ∧ (128 ≤ data.length → data.take 8 ≠ SwapEventDiscriminator →
      parseJupiterSwapEvent data = .err "invalid swap event discriminator")
  ∧ (128 ≤ data.length → data.take 8 = SwapEventDiscriminator →
      parseJupiterSwapEvent data =
        .ok { discriminator := slice data 0 8, unknown := slice data 8 16,
              amm := slice data 16 48, inputMint := slice data 48 80,
              inputAmount := leUint (slice data 80 88),
              outputMint := slice data 88 120,
              outputAmount := leUint (slice data 120 128) })
  ∧ (∀ (data' : List Nat) (e e' : SwapEvent),
      data'.length = data.length → data'.take 8 = data.take 8 →
      data'.drop 16 = data.drop 16 →
      parseJupiterSwapEvent data = .ok e → parseJupiterSwapEvent data' = .ok e' →
      e'.amm = e.amm ∧ e'.inputMint = e.inputMint ∧ e'.inputAmount = e.inputAmount
        ∧ e'.outputMint = e.outputMint ∧ e'.outputAmount = e.outputAmount) := by
  refine ⟨?_, ?_, ?_, ?_⟩
  · intro h
    unfold parseJupiterSwapEvent
    rw [if_pos h]
  · intro h128 hd
    unfold parseJupiterSwapEvent
    rw [if_neg (by omega), if_pos hd]
  · intro h128 hd
    unfold parseJupiterSwapEvent
    rw [if_neg (by omega), if_neg (not_not_intro hd)]
  · intro data' e e' hlen h8 h16 he he'
    have hdk : ∀ k, data'.drop (16 + k) = data.drop (16 + k) := by
      intro k
      rw [← List.drop_drop, h16, List.drop_drop]
    have h48 := hdk 32
    have h80 := hdk 64
    have h88 := hdk 72
    have h120 := hdk 104
    norm_num at h48 h80 h88 h120
    have e1 := parseJupiterSwapEvent_ok he
    have e2 := parseJupiterSwapEvent_ok he'
    subst e1
    subst e2
    refine ⟨?_, ?_, ?_, ?_, ?_⟩ <;> simp only [slice]
    · rw [h16]
    · rw [h48]
    · rw [h80]
    · rw [h88]
    · rw [h120]

/-- Witness for C3: concrete decodes on a short buffer, a 128-byte buffer
with a wrong discriminator, and two 128-byte buffers differing only in the
opaque bytes [8:16), whose five decoded fields coincide. -/
theorem eventDecode_witness :
    parseJupiterSwapEvent ([] : List Nat) = .err "swap event data too short: 0 bytes"
  ∧ parseJupiterSwapEvent (List.replicate 128 1) = .err "invalid swap event discriminator"
  ∧ parseJupiterSwapEvent (SwapEventDiscriminator ++ List.replicate 120 0)
      = .ok { discriminator := SwapEventDiscriminator, unknown := List.replicate 8 0,
              amm := List.replicate 32 0, inputMint := List.replicate 32 0,
              inputAmount := 0, outputMint := List.replicate 32 0, outputAmount := 0 }
  ∧ (({ discriminator := SwapEventDiscriminator, unknown := List.replicate 8 9,
        amm := List.replicate 32 0, inputMint := List.replicate 32 0,
        inputAmount := 0, outputMint := List.replicate 32 0, outputAmount := 0 }
        : SwapEvent).inputAmount
      = ({ discriminator := SwapEventDiscriminator, unknown := List.replicate 8 0,
           amm := List.replicate 32 0, inputMint := List.replicate 32 0,
           inputAmount := 0, outputMint := List.replicate 32 0, outputAmount := 0 }
           : SwapEvent).inputAmount) := by
  have h1 : parseJupiterSwapEvent (SwapEventDiscriminator ++ List.replicate 120 0)
      = .ok { discriminator := SwapEventDiscriminator, unknown := List.replicate 8 0,
              amm := List.replicate 32 0, inputMint := List.replicate 32 0,
              inputAmount := 0, outputMint := List.replicate 32 0, outputAmount := 0 } :=
    ((eventDecode _).2.2.1 (by decide) (by decide)).trans (by decide)
  have h2 : parseJupiterSwapEvent
        (SwapEventDiscriminator ++ (List.replicate 8 9 ++ List.replicate 112 0))
      = .ok { discriminator := SwapEventDiscriminator, unknown := List.replicate 8 9,
              amm := List.replicate 32 0, inputMint := List.replicate 32 0,
              inputAmount := 0, outputMint := List.replicate 32 0, outputAmount := 0 } :=
    ((eventDecode _).2.2.1 (by decide) (by decide)).trans (by decide)
  refine ⟨((eventDecode []).1 (by decide)).trans (by decide),
          (eventDecode _).2.1 (by decide) (by decide), h1, ?_⟩
  exact ((eventDecode _).2.2.2 _ _ _ (by decide) (by decide) (by decide) h1 h2).2.2.1

/-- C4: instruction classification: buffers shorter than 8 bytes fail with
the too-short error; buffers of length at least 8 whose first 8 bytes match
none of the six discriminators fail with the unknown-instruction error; and
a first-8-byte match with one of the six discriminators dispatches to
exactly the corresponding instruction kind. -/
theorem instructionDispatch (data : List Nat) :
    (data.length < 8 → parseJupiterV6Instruction data = .err "instruction data too short")
  ∧ (8 ≤ data.length →
      data.take 8 ∉ ([routeDisc, routeWithTokenLedgerDisc, sharedAccountsRouteDisc,
        sharedAccountsRouteWithTokenLedgerDisc, exactOutRouteDisc,
        sharedAccountsExactOutRouteDisc] : List (List Nat)) →
      parseJupiterV6Instruction data =
        .err ("unknown instruction discriminator: " ++ hexBytes (data.take 8)))
  ∧ (data.take 8 = routeDisc →
      parseJupiterV6Instruction data = parseRouteInstruction data "route"
      ∧ ∀ r, parseJupiterV6Instruction data = .ok r → r.instructionType = "route")
  ∧ (data.take 8 = routeWithTokenLedgerDisc →
      parseJupiterV6Instruction data = parseRouteInstruction data "routeWithTokenLedger"
      ∧ ∀ r, parseJupiterV6Instruction data = .ok r →
          r.instructionType = "routeWithTokenLedger")
  ∧ (data.take 8 = sharedAccountsRouteDisc →
      parseJupiterV6Instruction data = parseSharedAccountsRoute data "sharedAccountsRoute"
      ∧ ∀ r, parseJupiterV6Instruction data = .ok r →
          r.instructionType = "sharedAccountsRoute")
  ∧ (data.take 8 = sharedAccountsRouteWithTokenLedgerDisc →
      parseJupiterV6Instruction data =
        parseSharedAccountsRoute data "sharedAccountsRouteWithTokenLedger"
      ∧ ∀ r, parseJupiterV6Instruction data = .ok r →
          r.instructionType = "sharedAccountsRouteWithTokenLedger")
  ∧ (data.take 8 = exactOutRouteDisc →
      parseJupiterV6Instruction data = parseExactOutRoute data "exactOutRoute"
      ∧ ∀ r, parseJupiterV6Instruction data = .ok r →
          r.instructionType = "exactOutRoute")
  ∧ (data.take 8 = sharedAccountsExactOutRouteDisc →
      parseJupiterV6Instruction data =
        parseSharedAccountsRoute data "sharedAccountsExactOutRoute"
      ∧ ∀ r, parseJupiterV6Instruction data = .ok r →
          r.instructionType = "sharedAccountsExactOutRoute") := by
  refine ⟨?_, ?_, ?_, ?_, ?_, ?_, ?_, ?_⟩
  · intro h
    unfold parseJupiterV6Instruction
    rw [if_pos h]
  · intro h8 ht
    simp only [List.mem_cons, List.not_mem_nil, or_false] at ht
    push_neg at ht
    obtain ⟨n1, n2, n3, n4, n5, n6⟩ := ht
    unfold parseJupiterV6Instruction
    rw [if_neg (by omega), if_neg n1, if_neg n2, if_neg n3, if_neg n4, if_neg n5,
        if_neg n6]
  · intro hd
    have h8len : ¬ data.length < 8 := by
      have hl := congrArg List.length hd
      rw [List.length_take, show routeDisc.length = 8 from rfl] at hl
      omega
    have heq : parseJupiterV6Instruction data = parseRouteInstruction data "route" := by
      unfold parseJupiterV6Instruction
      rw [if_neg h8len, if_pos hd]
    exact ⟨heq, fun r hr => parseRouteInstruction_ok_type (heq ▸ hr)⟩
  · intro hd
    have h8len : ¬ data.length < 8 := by
      have hl := congrArg List.length hd
      rw [List.length_take, show routeWithTokenLedgerDisc.length = 8 from rfl] at hl
      omega
    have heq : parseJupiterV6Instruction data
        = parseRouteInstruction data "routeWithTokenLedger" := by
      unfold parseJupiterV6Instruction
      rw [if_neg h8len, if_neg (fun hc => absurd (hd.symm.trans hc) (by decide)),
          if_pos hd]
    exact ⟨heq, fun r hr => parseRouteInstruction_ok_type (heq ▸ hr)⟩
  · intro hd
    have h8len : ¬ data.length < 8 := by
      have hl := congrArg List.length hd
      rw [List.length_take, show sharedAccountsRouteDisc.length = 8 from rfl] at hl
      omega
    have heq : parseJupiterV6Instruction data
        = parseSharedAccountsRoute data "sharedAccountsRoute" := by
      unfold parseJupiterV6Instruction
      rw [if_neg h8len, if_neg (fun hc => absurd (hd.symm.trans hc) (by decide)),
          if_neg (fun hc => absurd (hd.symm.trans hc) (by decide)), if_pos hd]
    exact ⟨heq, fun r hr => parseSharedAccountsRoute_ok_type (heq ▸ hr)⟩
  · intro hd
    have h8len : ¬ data.length < 8 := by
      have hl := congrArg List.length hd
      rw [List.length_take,
          show sharedAccountsRouteWithTokenLedgerDisc.length = 8 from rfl] at hl
      omega
    have heq : parseJupiterV6Instruction data
        = parseSharedAccountsRoute data "sharedAccountsRouteWithTokenLedger" := by
      unfold parseJupiterV6Instruction
      rw [if_neg h8len, if_neg (fun hc => absurd (hd.symm.trans hc) (by decide)),
          if_neg (fun hc => absurd (hd.symm.trans hc) (by decide)),
          if_neg (fun hc => absurd (hd.symm.trans hc) (by decide)), if_pos hd]
    exact ⟨heq, fun r hr => parseSharedAccountsRoute_ok_type (heq ▸ hr)⟩
  · intro hd
    have h8len : ¬ data.length < 8 := by
      have hl := congrArg List.length hd
      rw [List.length_take, show exactOutRouteDisc.length = 8 from rfl] at hl
      omega
    have heq : parseJupiterV6Instruction data
        = parseExactOutRoute data "exactOutRoute" := by
      unfold parseJupiterV6Instruction
      rw [if_neg h8len, if_neg (fun hc => absurd (hd.symm.trans hc) (by decide)),
          if_neg (fun hc => absurd (hd.symm.trans hc) (by decide)),
          if_neg (fun hc => absurd (hd.symm.trans hc) (by decide)),
          if_neg (fun hc => absurd (hd.symm.trans hc) (by decide)), if_pos hd]
    exact ⟨heq, fun r hr => parseExactOutRoute_ok_type (heq ▸ hr)⟩
  · intro hd
    have h8len : ¬ data.length < 8 := by
      have hl := congrArg List.length hd
      rw [List.length_take,
          show sharedAccountsExactOutRouteDisc.length = 8 from rfl] at hl
      omega
    have heq : parseJupiterV6Instruction data
        = parseSharedAccountsRoute data "sharedAccountsExactOutRoute" := by
      unfold parseJupiterV6Instruction
      rw [if_neg h8len, if_neg (fun hc => absurd (hd.symm.trans hc) (by decide)),
          if_neg (fun hc => absurd (hd.symm.trans hc) (by decide)),
          if_neg (fun hc => absurd (hd.symm.trans hc) (by decide)),
          if_neg (fun hc => absurd (hd.symm.trans hc) (by decide)),
          if_neg (fun hc => absurd (hd.symm.trans hc) (by decide)), if_pos hd]
    exact ⟨heq, fun r hr => parseSharedAccountsRoute_ok_type (heq ▸ hr)⟩

/-- Witness for C4: a short buffer, an unknown discriminator, and a
sharedAccountsExactOutRoute dispatch, each at a concrete input. -/
theorem instructionDispatch_witness :
    parseJupiterV6Instruction ([] : List Nat) = .err "instruction data too short"
  ∧ parseJupiterV6Instruction [1, 2, 3, 4, 5, 6, 7, 8]
      = .err "unknown instruction discriminator: 0102030405060708"
  ∧ parseJupiterV6Instruction (sharedAccountsExactOutRouteDisc ++ [0, 0, 0, 0, 0])
      = parseSharedAccountsRoute (sharedAccountsExactOutRouteDisc ++ [0, 0, 0, 0, 0])
          "sharedAccountsExactOutRoute" := by
  refine ⟨(instructionDispatch []).1 (by decide),
          ((instructionDispatch _).2.1 (by decide) (by decide)).trans (by decide),
          ((instructionDispatch _).2.2.2.2.2.2.2 (by decide)).1⟩

/-- C5: every successfully decoded sharedAccountsExactOutRoute instruction
has its leading id byte at offset 8 preceding the route-plan count (bytes
9..12), stores the first trailing u64 after the route plan as the out
amount and the second as the quoted in amount, and stores the derived
maximum input amount — the float64 computation
`inAmount * (1 + slippageBps/10000)` truncated to u64 — in the
`minAmountOut` slot that the other instruction kinds use for the minimum
amount out. -/
theorem sharedAccountsExactOut (data : List Nat) (r : JupiterSwapParams)
    (h : parseSharedAccountsRoute data "sharedAccountsExactOutRoute" = .ok r) :
    r.instructionType = "sharedAccountsExactOutRoute"
  ∧ r.id = data.getD 8 0
  ∧ ∃ offset,
      parseRoutePlanLoop data (leUint (slice data 9 13)) 0 13 [] = .ok (r.routePlan, offset)
    ∧ r.outAmount = leUint (slice data offset (offset + 8))
    ∧ r.quotedInAmount = leUint (slice data (offset + 8) (offset + 16))
    ∧ r.slippageBps = leUint (slice data (offset + 16) (offset + 18))
    ∧ r.minAmountOut = maxAmountInGo r.quotedInAmount r.slippageBps := by
  unfold parseSharedAccountsRoute at h
  split at h
  · exact GoResult.noConfusion h
  · exact GoResult.noConfusion h
  next id hid =>
  split at h
  · exact GoResult.noConfusion h
  · exact GoResult.noConfusion h
  next countBytes hcb =>
  split at h
  · exact GoResult.noConfusion h
  · exact GoResult.noConfusion h
  next routePlan offset hloop =>
  rw [if_pos rfl] at h
  split at h
  · exact GoResult.noConfusion h
  · exact GoResult.noConfusion h
  next quotedOutBytes hqo =>
  split at h
  · exact GoResult.noConfusion h
  · exact GoResult.noConfusion h
  next inBytes hin =>
  split at h
  · exact GoResult.noConfusion h
  · exact GoResult.noConfusion h
  next slipBytes hslip =>
  split at h
  · exact GoResult.noConfusion h
  · exact GoResult.noConfusion h
  next platformFeeBps hpf =>
  injection h with h
  subst h
  obtain ⟨hcb', -, -⟩ := readSlice_ok hcb
  subst hcb'
  obtain ⟨hqo', -, -⟩ := readSlice_ok hqo
  subst hqo'
  obtain ⟨hin', -, -⟩ := readSlice_ok hin
  subst hin'
  obtain ⟨hslip', -, -⟩ := readSlice_ok hslip
  subst hslip'
  exact ⟨rfl, (readByte_ok hid).1, offset, hloop, rfl, rfl, rfl, rfl⟩

/-- Witness for C5: a concrete sharedAccountsExactOutRoute instruction
(id 7, empty route plan, out amount 5, in amount 1000000, slippage 50 bps)
decodes with the exact-out field layout and the derived maximum input
amount in the minAmountOut slot. -/
theorem sharedAccountsExactOut_witness :
    parseSharedAccountsRoute
      [0xB0, 0xD1, 0x69, 0xA8, 0x9A, 0x7D, 0x45, 0x3E, 7, 0, 0, 0, 0,
       5, 0, 0, 0, 0, 0, 0, 0, 64, 66, 15, 0, 0, 0, 0, 0, 50, 0, 9]
      "sharedAccountsExactOutRoute"
      = .ok { instructionType := "sharedAccountsExactOutRoute", id := 7,
              routePlan := [], inAmount := 0, outAmount := 5,
              quotedOutAmount := 0, quotedInAmount := 1000000,
              slippageBps := 50, platformFeeBps := 9, minAmountOut := 1004999 }
  ∧ (7 : Nat) =
      ([0xB0, 0xD1, 0x69, 0xA8, 0x9A, 0x7D, 0x45, 0x3E, 7, 0, 0, 0, 0,
        5, 0, 0, 0, 0, 0, 0, 0, 64, 66, 15, 0, 0, 0, 0, 0, 50, 0, 9] : List Nat).getD 8 0
  ∧ (1004999 : Nat) = maxAmountInGo 1000000 50 := by
  have h : parseSharedAccountsRoute
      [0xB0, 0xD1, 0x69, 0xA8, 0x9A, 0x7D, 0x45, 0x3E, 7, 0, 0, 0, 0,
       5, 0, 0, 0, 0, 0, 0, 0, 64, 66, 15, 0, 0, 0, 0, 0, 50, 0, 9]
      "sharedAccountsExactOutRoute"
      = .ok { instructionType := "sharedAccountsExactOutRoute", id := 7,
              routePlan := [], inAmount := 0, outAmount := 5,
              quotedOutAmount := 0, quotedInAmount := 1000000,
              slippageBps := 50, platformFeeBps := 9, minAmountOut := 1004999 } := by
    decide
  obtain ⟨-, h2, -, -, -, -, -, h7⟩ := sharedAccountsExactOut _ _ h
  exact ⟨h, h2, h7⟩

/-- C6: every one-byte boolean/side flag parameter decodes byte 0 to the
first named state ("Bid" / false) and every nonzero byte — 0x01, 0x02 and
0xFF included — to the second named state ("Ask" / true): the test is
nonzero, not equality with 1. -/
theorem flagSemantics (data : List Nat) (off : Nat) (hoff : off < data.length) :
    (data.getD off 0 = 0 →
        decodeSwapType 8 data off = .ok ⟨"Crema", [("a_to_b", .b false)]⟩
      ∧ decodeSwapType 12 data off = .ok ⟨"Serum", [("side", .s "Bid")]⟩
      ∧ decodeSwapType 15 data off = .ok ⟨"Aldrin", [("side", .s "Bid")]⟩
      ∧ decodeSwapType 16 data off = .ok ⟨"AldrinV2", [("side", .s "Bid")]⟩
      ∧ decodeSwapType 17 data off = .ok ⟨"Whirlpool", [("a_to_b", .b false)]⟩
      ∧ decodeSwapType 18 data off = .ok ⟨"Invariant", [("x_to_y", .b false)]⟩
      ∧ decodeSwapType 21 data off = .ok ⟨"DeltaFi", [("stable", .b false)]⟩
      ∧ decodeSwapType 23 data off = .ok ⟨"MarcoPolo", [("x_to_y", .b false)]⟩
      ∧ decodeSwapType 24 data off = .ok ⟨"Dradex", [("side", .s "Bid")]⟩
      ∧ decodeSwapType 27 data off = .ok ⟨"Openbook", [("side", .s "Bid")]⟩
      ∧ decodeSwapType 28 data off = .ok ⟨"Phoenix", [("side", .s "Bid")]⟩
      ∧ decodeSwapType 39 data off = .ok ⟨"OpenBookV2", [("side", .s "Bid")]⟩
      ∧ decodeSwapType 47 data off = .ok ⟨"WhirlpoolSwapV2", [("a_to_b", .b false)]⟩
      ∧ decodeSwapType 58 data off = .ok ⟨"Obric", [("x_to_y", .b false)]⟩
      ∧ decodeSwapType 60 data off = .ok ⟨"FoxClaimPartial", [("is_y", .b false)]⟩
      ∧ decodeSwapType 61 data off = .ok ⟨"SolFi", [("is_quote_to_base", .b false)]⟩)
  ∧ (data.getD off 0 ≠ 0 →
        decodeSwapType 8 data off = .ok ⟨"Crema", [("a_to_b", .b true)]⟩
      ∧ decodeSwapType 12 data off = .ok ⟨"Serum", [("side", .s "Ask")]⟩
      ∧ decodeSwapType 15 data off = .ok ⟨"Aldrin", [("side", .s "Ask")]⟩
      ∧ decodeSwapType 16 data off = .ok ⟨"AldrinV2", [("side", .s "Ask")]⟩
      ∧ decodeSwapType 17 data off = .ok ⟨"Whirlpool", [("a_to_b", .b true)]⟩
      ∧ decodeSwapType 18 data off = .ok ⟨"Invariant", [("x_to_y", .b true)]⟩
      ∧ decodeSwapType 21 data off = .ok ⟨"DeltaFi", [("stable", .b true)]⟩
      ∧ decodeSwapType 23 data off = .ok ⟨"MarcoPolo", [("x_to_y", .b true)]⟩
      ∧ decodeSwapType 24 data off = .ok ⟨"Dradex", [("side", .s "Ask")]⟩
      ∧ decodeSwapType 27 data off = .ok ⟨"Openbook", [("side", .s "Ask")]⟩
      ∧ decodeSwapType 28 data off = .ok ⟨"Phoenix", [("side", .s "Ask")]⟩
      ∧ decodeSwapType 39 data off = .ok ⟨"OpenBookV2", [("side", .s "Ask")]⟩
      ∧ decodeSwapType 47 data off = .ok ⟨"WhirlpoolSwapV2", [("a_to_b", .b true)]⟩
      ∧ decodeSwapType 58 data off = .ok ⟨"Obric", [("x_to_y", .b true)]⟩
      ∧ decodeSwapType 60 data off = .ok ⟨"FoxClaimPartial", [("is_y", .b true)]⟩
      ∧ decodeSwapType 61 data off = .ok ⟨"SolFi", [("is_quote_to_base", .b true)]⟩) := by
  have hlen : ¬ (off + 1 > data.length) := by omega
  constructor
  · intro h0
    refine ⟨?_, ?_, ?_, ?_, ?_, ?_, ?_, ?_, ?_, ?_, ?_, ?_, ?_, ?_, ?_, ?_⟩
    all_goals simp only [decodeSwapType]
    all_goals rw [if_neg hlen, h0]
    all_goals decide
  · intro hb
    refine ⟨?_, ?_, ?_, ?_, ?_, ?_, ?_, ?_, ?_, ?_, ?_, ?_, ?_, ?_, ?_, ?_⟩
    all_goals simp only [decodeSwapType]
    all_goals rw [if_neg hlen]
    all_goals first
      | rw [decide_eq_true hb]
      | rw [if_pos hb]

/-- Witness for C6: byte 0 gives the first state, and bytes 1, 2 and 255
each give the second state. -/
theorem flagSemantics_witness :
    decodeSwapType 12 [0] 0 = .ok ⟨"Serum", [("side", .s "Bid")]⟩
  ∧ decodeSwapType 12 [1] 0 = .ok ⟨"Serum", [("side", .s "Ask")]⟩
  ∧ decodeSwapType 8 [2] 0 = .ok ⟨"Crema", [("a_to_b", .b true)]⟩
  ∧ decodeSwapType 61 [255] 0 = .ok ⟨"SolFi", [("is_quote_to_base", .b true)]⟩ := by
  refine ⟨((flagSemantics [0] 0 (by decide)).1 (by decide)).2.1,
          ((flagSemantics [1] 0 (by decide)).2 (by decide)).2.1,
          ((flagSemantics [2] 0 (by decide)).2 (by decide)).1,
          ((flagSemantics [255] 0 (by decide)).2
            (by decide)).2.2.2.2.2.2.2.2.2.2.2.2.2.2.2⟩

theorem getLast?_cons_getLastD (a : α) (l : List α) :
    (a :: l).getLast? = some (l.getLastD a) := by
  induction l generalizing a with
  | nil => rfl
  | cons b t ih => rw [List.getLast?_cons_cons, ih, List.getLastD_cons]

/-- C8: the summary of a list of decoded events counts every event; for a
non-empty list its input token/amount come from the first event, its output
token/amount from the last event, and its route joins the first event's
input mint with every event's output mint via " -> "; for the empty list the
count is 0 and both token fields are empty strings (no fault). -/
theorem summaryGeneration (instructions : List JupiterSwapParams)
    (events : List SwapEvent) :
    (generateSwapSummary instructions events).totalSwaps = events.length
  ∧ ((generateSwapSummary instructions []).totalSwaps = 0
     ∧ (generateSwapSummary instructions []).inputToken = ""
     ∧ (generateSwapSummary instructions []).outputToken = "")
  ∧ (∀ e es, events = e :: es →
       (generateSwapSummary instructions events).inputToken = pkString e.inputMint
     ∧ (generateSwapSummary instructions events).totalInput = e.inputAmount
     ∧ (∀ lastEvent, events.getLast? = some lastEvent →
          (generateSwapSummary instructions events).outputToken
            = pkString lastEvent.outputMint
        ∧ (generateSwapSummary instructions events).totalOutput
            = lastEvent.outputAmount)
     ∧ (generateSwapSummary instructions events).route
         = String.intercalate " -> "
             (pkString e.inputMint :: events.map fun ev => pkString ev.outputMint)) := by
  refine ⟨?_, ⟨rfl, rfl, rfl⟩, ?_⟩
  · cases events <;> rfl
  · intro e es h
    subst h
    refine ⟨rfl, rfl, ?_, rfl⟩
    intro lastEvent hlast
    rw [getLast?_cons_getLastD] at hlast
    injection hlast with hlast
    subst hlast
    exact ⟨rfl, rfl⟩

/-- Witness for C8: the summary of one concrete event whose input mint is
byte [1] and output mint byte [2]. -/
theorem summaryGeneration_witness :
    (generateSwapSummary [] [⟨[], [], [], [1], 5, [2], 6⟩]).totalSwaps = 1
  ∧ (generateSwapSummary [] [⟨[], [], [], [1], 5, [2], 6⟩]).inputToken = pkString [1]
  ∧ (generateSwapSummary [] [⟨[], [], [], [1], 5, [2], 6⟩]).totalInput = 5
  ∧ (generateSwapSummary [] [⟨[], [], [], [1], 5, [2], 6⟩]).outputToken = pkString [2]
  ∧ (generateSwapSummary [] [⟨[], [], [], [1], 5, [2], 6⟩]).route
      = String.intercalate " -> " [pkString [1], pkString [2]] := by
  have h := (summaryGeneration [] [⟨[], [], [], [1], 5, [2], 6⟩]).2.2
    ⟨[], [], [], [1], 5, [2], 6⟩ [] rfl
  exact ⟨(summaryGeneration [] [⟨[], [], [], [1], 5, [2], 6⟩]).1, h.1, h.2.1,
         (h.2.2.1 ⟨[], [], [], [1], 5, [2], 6⟩ rfl).1, h.2.2.2⟩

theorem foldl_filterMap {α β : Type} (f : α → Option β) (step : List β → α → List β)
    (hstep : ∀ evs a, step evs a = evs ++ (f a).toList) :
    ∀ (l : List α) (acc : List β), l.foldl step acc = acc ++ l.filterMap f := by
  intro l
  induction l with
  | nil => intro acc; simp
  | cons a t ih =>
    intro acc
    rw [List.foldl_cons, hstep, ih, List.filterMap_cons]
    cases hfa : f a <;> simp [hfa]

theorem processInner_eq (keys : List (List Nat)) (evs : List SwapEvent)
    (inst : InnerInstruction) :
    processInnerInstruction keys evs inst = evs ++ (innerCandidate keys inst).toList := by
  unfold processInnerInstruction innerCandidate
  repeat' split
  all_goals simp_all [GoResult.toOption]

theorem processLog_eq (evs : List SwapEvent) (logMsg : List Nat) :
    processLogMessage evs logMsg = evs ++ (logCandidate logMsg).toList := by
  unfold processLogMessage logCandidate
  repeat' split
  all_goals simp_all [GoResult.toOption]

theorem innerScan_eq (keys : List (List Nat)) (groups : List InnerInstructionGroup)
    (events : List SwapEvent) :
    innerScan keys groups events
      = events
        ++ (groups.flatMap fun g => g.instructions).filterMap (innerCandidate keys) := by
  induction groups generalizing events with
  | nil => simp [innerScan]
  | cons g t ih =>
    rw [innerScan, List.foldl_cons,
        foldl_filterMap (innerCandidate keys) (processInnerInstruction keys)
          (processInner_eq keys) g.instructions events]
    have h2 := ih (events ++ g.instructions.filterMap (innerCandidate keys))
    rw [innerScan] at h2
    rw [h2, List.flatMap_cons, List.filterMap_append, List.append_assoc]

/-- C9: for every transaction, the extracted event list is exactly the
inner-instruction events followed by the log-line events, each group in
original scan order. -/
theorem eventOrder (tx : TxResult) :
    extractJupiterEvents tx = innerEventsOf tx ++ logEventsOf tx := by
  obtain ⟨meta, transaction⟩ := tx
  cases meta with
  | none => rfl
  | some m =>
    obtain ⟨inner, logs⟩ := m
    cases inner with
    | none => rfl
    | some groups =>
      cases transaction with
      | none => rfl
      | some msg =>
        cases logs with
        | none =>
          simp only [extractJupiterEvents, innerEventsOf, logEventsOf]
          rw [innerScan_eq]
          simp
        | some ls =>
          simp only [extractJupiterEvents, innerEventsOf, logEventsOf]
          rw [logScan, foldl_filterMap logCandidate processLogMessage processLog_eq,
              innerScan_eq]
          simp

end JupV6
